import Mathlib

/-!
Verification of the gircheck type-resolution and code-emission engine.

The development shallowly embeds the Python sources `gircheck.py` and
`codewriter.py`: Python strings become `String`, optional / possibly missing
attributes become `Option String`, dictionaries built by iterated assignment
become last-write-wins lookups over the original entry list, and code paths
that raise become `Except String`.
-/

/-- Python `str.split(sep)` for a one-character separator, auxiliary. -/
def splitCharAux (c : Char) : List Char → List Char → List String
  | [], acc => [String.mk acc.reverse]
  | x :: xs, acc =>
    if x = c then String.mk acc.reverse :: splitCharAux c xs []
    else splitCharAux c xs (x :: acc)

/-- Python `str.split(sep)` for a one-character separator (e.g. `","`). -/
def splitChar (c : Char) (s : String) : List String :=
  splitCharAux c s.data []

/-- Python `str.strip()`: remove leading and trailing whitespace. -/
def pyStrip (s : String) : String :=
  String.mk (((s.data.dropWhile Char.isWhitespace).reverse.dropWhile Char.isWhitespace).reverse)

/-- Python `str.splitlines()` for texts whose only line terminator is `\n`:
splits on newlines and drops the piece after a trailing newline. -/
def pySplitlines (s : String) : List String :=
  let parts := splitChar '\n' s
  if parts.getLast? = some "" then parts.dropLast else parts

/-- Python `str.startswith(p)`. -/
def strStarts (s p : String) : Bool :=
  p.data.isPrefixOf s.data

/-- Python `s.replace('"', '\\"')` as used on identity expressions. -/
def escQuotes (s : String) : String :=
  String.mk (s.data.foldr (fun ch acc => if ch = '"' then '\\' :: '"' :: acc else ch :: acc) [])

/-- Python `"%s" % x` for an optional string: `None` renders as `"None"`. -/
def pyStr : Option String → String
  | some s => s
  | none => "None"

/-- Python `s * n` for strings (used for indentation padding). -/
def repeatStr (s : String) : Nat → String
  | 0 => ""
  | n + 1 => s ++ repeatStr s n

/-- `RegisteredType` from gircheck.py: `gtype_name`, `ctype`, `get_type`,
and the `fundamental_type` only set by the merge loader. -/
structure RegisteredType where
  gtype_name : String
  ctype : String
  get_type : String
  fundamental_type : Option String
deriving DecidableEq

def TYPE_INVALID : RegisteredType := ⟨"invalid", "invalid", "G_TYPE_INVALID", none⟩

def TYPE_NONE : RegisteredType := ⟨"none", "void", "G_TYPE_NONE", none⟩

def TYPE_INTERFACE : RegisteredType := ⟨"GTypeInterface", "GTypeInterface", "G_TYPE_INTERFACE", none⟩

def TYPE_BOOLEAN : RegisteredType := ⟨"gboolean", "gboolean", "G_TYPE_BOOLEAN", none⟩

def TYPE_SIZE : RegisteredType := ⟨"gsize", "gsize", "G_TYPE_ULONG", none⟩

def TYPE_SSIZE : RegisteredType := ⟨"gssize", "gssize", "G_TYPE_LONG", none⟩

def TYPE_INT8 : RegisteredType := ⟨"gint8", "gint8", "G_TYPE_CHAR", none⟩

def TYPE_UINT8 : RegisteredType := ⟨"guint8", "guint8", "G_TYPE_UCHAR", none⟩

def TYPE_INT16 : RegisteredType := ⟨"gint16", "gint16", "G_TYPE_INT", none⟩

def TYPE_UINT16 : RegisteredType := ⟨"guint16", "guint16", "G_TYPE_UINT", none⟩

def TYPE_INT32 : RegisteredType := ⟨"gint32", "gint32", "G_TYPE_INT", none⟩

def TYPE_UINT32 : RegisteredType := ⟨"guint32", "guint32", "G_TYPE_UINT", none⟩

def TYPE_INT64 : RegisteredType := ⟨"gint64", "gint64", "G_TYPE_INT64", none⟩

def TYPE_UINT64 : RegisteredType := ⟨"guint64", "guint64", "G_TYPE_UINT64", none⟩

def TYPE_ANY : RegisteredType := ⟨"gpointer", "gpointer", "G_TYPE_POINTER", none⟩

def TYPE_CONSTPOINTER : RegisteredType := ⟨"gconstpointer", "gconstpointer", "G_TYPE_POINTER", none⟩

def TYPE_CHAR : RegisteredType := ⟨"gchar", "gchar", "G_TYPE_CHAR", none⟩

def TYPE_UCHAR : RegisteredType := ⟨"guchar", "guchar", "G_TYPE_UCHAR", none⟩

def TYPE_INT : RegisteredType := ⟨"gint", "gint", "G_TYPE_INT", none⟩

def TYPE_UINT : RegisteredType := ⟨"guint", "guint", "G_TYPE_UINT", none⟩

def TYPE_SHORT : RegisteredType := ⟨"gshort", "gshort", "G_TYPE_INT", none⟩

def TYPE_USHORT : RegisteredType := ⟨"gushort", "gushort", "G_TYPE_UINT", none⟩

def TYPE_LONG : RegisteredType := ⟨"glong", "glong", "G_TYPE_LONG", none⟩

def TYPE_ULONG : RegisteredType := ⟨"gulong", "gulong", "G_TYPE_ULONG", none⟩

def TYPE_FLOAT : RegisteredType := ⟨"gfloat", "gfloat", "G_TYPE_FLOAT", none⟩

def TYPE_DOUBLE : RegisteredType := ⟨"gdouble", "gdouble", "G_TYPE_DOUBLE", none⟩

def TYPE_OFFSET : RegisteredType := ⟨"goffset", "goffset", "G_TYPE_INT64", none⟩

def TYPE_INTPTR : RegisteredType := ⟨"gintptr", "gintptr", "G_TYPE_POINTER", none⟩

def TYPE_UINTPTR : RegisteredType := ⟨"guintptr", "guintptr", "G_TYPE_POINTER", none⟩

def TYPE_OBJECT : RegisteredType := ⟨"GObject", "GObject", "G_TYPE_OBJECT", none⟩

def TYPE_VARIANT : RegisteredType := ⟨"GVariant", "GVariant", "G_TYPE_VARIANT", none⟩

def TYPE_CHECKSUM : RegisteredType := ⟨"GChecksum", "GChecksum", "G_TYPE_CHECKSUM", none⟩

def TYPE_ENUM : RegisteredType := ⟨"GEnum", "gint", "G_TYPE_ENUM", none⟩

def TYPE_FLAGS : RegisteredType := ⟨"GFlags", "gint", "G_TYPE_FLAGS", none⟩

def TYPE_LONG_LONG : RegisteredType := ⟨"long long", "long long", "G_TYPE_INT64", none⟩

def TYPE_LONG_ULONG : RegisteredType := ⟨"unsigned long long", "unsigned long long", "G_TYPE_UINT64", none⟩

def TYPE_LONG_DOUBLE : RegisteredType := ⟨"long double", "long double", "G_TYPE_DOUBLE", none⟩

def TYPE_UNICHAR : RegisteredType := ⟨"gunichar", "gunichar", "G_TYPE_INT", none⟩

def TYPE_UNICHAR2 : RegisteredType := ⟨"gunichar2", "gunichar2", "G_TYPE_INT", none⟩

def TYPE_GTYPE : RegisteredType := ⟨"GType", "GType", "G_TYPE_GTYPE", none⟩

def TYPE_STRING : RegisteredType := ⟨"utf8", "gchar*", "G_TYPE_STRING", none⟩

def TYPE_FILENAME : RegisteredType := ⟨"filename", "gchar*", "G_TYPE_STRING", none⟩

def TYPE_BOXED : RegisteredType := ⟨"GBoxed", "GBoxed", "G_TYPE_BOXED", none⟩

def TYPE_HASH_TABLE : RegisteredType := ⟨"GHashTable", "GHashTable", "G_TYPE_HASH_TABLE", none⟩

def TYPE_DATE : RegisteredType := ⟨"GDate", "GDate", "G_TYPE_DATE", none⟩

def TYPE_GSTRING : RegisteredType := ⟨"GString", "GString", "G_TYPE_GSTRING", none⟩

def TYPE_STRV : RegisteredType := ⟨"GStrv", "gchar**", "G_TYPE_STRV", none⟩

def TYPE_REGEX : RegisteredType := ⟨"GRegex", "GRegex", "G_TYPE_REGEX", none⟩

def TYPE_MATCH_INFO : RegisteredType := ⟨"GMatchInfo", "GMatchInfo", "G_TYPE_MATCH_INFO", none⟩

def TYPE_ARRAY : RegisteredType := ⟨"GArray", "GArray", "G_TYPE_ARRAY", none⟩

def TYPE_BYTE_ARRAY : RegisteredType := ⟨"GByteArray", "GByteArray", "G_TYPE_BYTE_ARRAY", none⟩

def TYPE_PTR_ARRAY : RegisteredType := ⟨"GPtrArray", "GPtrArray", "G_TYPE_PTR_ARRAY", none⟩

def TYPE_BYTES : RegisteredType := ⟨"GBytes", "GBytes", "G_TYPE_BYTES", none⟩

def TYPE_VARIANT_TYPE : RegisteredType := ⟨"GVariantType", "GVariantType", "G_TYPE_VARIANT_TYPE", none⟩

def TYPE_ERROR : RegisteredType := ⟨"GError", "GError", "G_TYPE_ERROR", none⟩

def TYPE_DATE_TIME : RegisteredType := ⟨"GDateTime", "GDateTime", "G_TYPE_DATE_TIME", none⟩

def TYPE_TIME_ZONE : RegisteredType := ⟨"GTimeZone", "GTimeZone", "G_TYPE_TIME_ZONE", none⟩

def TYPE_IO_CHANNEL : RegisteredType := ⟨"GIOChannel", "GIOChannel", "G_TYPE_IO_CHANNEL", none⟩

def TYPE_IO_CONDITION : RegisteredType := ⟨"GIOCondition", "GIOCondition", "G_TYPE_IO_CONDITION", none⟩

def TYPE_VARIANT_BUILDER : RegisteredType := ⟨"GVariantBuilder", "GVariantBuilder", "G_TYPE_VARIANT_BUILDER", none⟩

def TYPE_VARIANT_DICT : RegisteredType := ⟨"GVariantDict", "GVariantDict", "G_TYPE_VARIANT_DICT", none⟩

def TYPE_KEY_FILE : RegisteredType := ⟨"GKeyFile", "GKeyFile", "G_TYPE_KEY_FILE", none⟩

def TYPE_MAIN_CONTEXT : RegisteredType := ⟨"GMainContext", "GMainContext", "G_TYPE_MAIN_CONTEXT", none⟩

def TYPE_MAIN_LOOP : RegisteredType := ⟨"GMainLoop", "GMainLoop", "G_TYPE_MAIN_LOOP", none⟩

def TYPE_MAPPED_FILE : RegisteredType := ⟨"GMappedFile", "GMappedFile", "G_TYPE_MAPPED_FILE", none⟩

def TYPE_MARKUP_PARSE_CONTEXT : RegisteredType := ⟨"GMarkupParseContext", "GMarkupParseContext", "G_TYPE_MARKUP_PARSE_CONTEXT", none⟩

def TYPE_SOURCE : RegisteredType := ⟨"GSource", "GSource", "G_TYPE_SOURCE", none⟩

def TYPE_POLLFD : RegisteredType := ⟨"GPollFD", "GPollFD", "G_TYPE_POLLFD", none⟩

def TYPE_THREAD : RegisteredType := ⟨"GThread", "GThread", "G_TYPE_THREAD", none⟩

def TYPE_OPTION_GROUP : RegisteredType := ⟨"GOptionGroup", "GOptionGroup", "G_TYPE_OPTION_GROUP", none⟩

def TYPE_PARAM : RegisteredType := ⟨"GParam", "GParamSpec", "G_TYPE_PARAM", none⟩

def TYPE_PARAM_CHAR : RegisteredType := ⟨"GParamChar", "GParamChar", "G_TYPE_PARAM_CHAR", none⟩

def TYPE_PARAM_UCHAR : RegisteredType := ⟨"GParamUChar", "GParamUChar", "G_TYPE_PARAM_UCHAR", none⟩

def TYPE_PARAM_BOOLEAN : RegisteredType := ⟨"GParamBoolean", "GParamBoolean", "G_TYPE_PARAM_BOOLEAN", none⟩

def TYPE_PARAM_INT : RegisteredType := ⟨"GParamInt", "GParamInt", "G_TYPE_PARAM_INT", none⟩

def TYPE_PARAM_UINT : RegisteredType := ⟨"GParamUInt", "GParamUInt", "G_TYPE_PARAM_UINT", none⟩

def TYPE_PARAM_LONG : RegisteredType := ⟨"GParamLong", "GParamLong", "G_TYPE_PARAM_LONG", none⟩

def TYPE_PARAM_ULONG : RegisteredType := ⟨"GParamULong", "GParamULong", "G_TYPE_PARAM_ULONG", none⟩

def TYPE_PARAM_INT64 : RegisteredType := ⟨"GParamInt64", "GParamInt64", "G_TYPE_PARAM_INT64", none⟩

def TYPE_PARAM_UINT64 : RegisteredType := ⟨"GParamUInt64", "GParamUInt64", "G_TYPE_PARAM_UINT64", none⟩

def TYPE_PARAM_UNICHAR : RegisteredType := ⟨"GParamUnichar", "GParamUnichar", "G_TYPE_PARAM_UNICHAR", none⟩

def TYPE_PARAM_ENUM : RegisteredType := ⟨"GParamEnum", "GParamEnum", "G_TYPE_PARAM_ENUM", none⟩

def TYPE_PARAM_FLAGS : RegisteredType := ⟨"GParamFlags", "GParamFlags", "G_TYPE_PARAM_FLAGS", none⟩

def TYPE_PARAM_FLOAT : RegisteredType := ⟨"GParamFloat", "GParamFloat", "G_TYPE_PARAM_FLOAT", none⟩

def TYPE_PARAM_DOUBLE : RegisteredType := ⟨"GParamDouble", "GParamDouble", "G_TYPE_PARAM_DOUBLE", none⟩

def TYPE_PARAM_STRING : RegisteredType := ⟨"GParamString", "GParamString", "G_TYPE_PARAM_STRING", none⟩

def TYPE_PARAM_PARAM : RegisteredType := ⟨"GParamParam", "GParamParam", "G_TYPE_PARAM_PARAM", none⟩

def TYPE_PARAM_BOXED : RegisteredType := ⟨"GParamBoxed", "GParamBoxed", "G_TYPE_PARAM_BOXED", none⟩

def TYPE_PARAM_POINTER : RegisteredType := ⟨"GParamPointer", "GParamPointer", "G_TYPE_PARAM_POINTER", none⟩

def TYPE_PARAM_VALUE_ARRAY : RegisteredType := ⟨"GParamValueArray", "GParamValueArray", "G_TYPE_PARAM_VALUE_ARRAY", none⟩

def TYPE_PARAM_OBJECT : RegisteredType := ⟨"GParamObject", "GParamObject", "G_TYPE_PARAM_OBJECT", none⟩

def TYPE_PARAM_OVERRIDE : RegisteredType := ⟨"GParamOverride", "GParamOverride", "G_TYPE_PARAM_OVERRIDE", none⟩

def TYPE_PARAM_GTYPE : RegisteredType := ⟨"GParamGType", "GParamGType", "G_TYPE_PARAM_GTYPE", none⟩

def TYPE_PARAM_VARIANT : RegisteredType := ⟨"GParamVariant", "GParamVariant", "G_TYPE_PARAM_VARIANT", none⟩

/-- The fixed ordered registry entry list `REGISTERED_TYPES` from gircheck.py. -/
def REGISTERED_TYPES : List RegisteredType :=
  [TYPE_INVALID, TYPE_NONE, TYPE_INTERFACE, TYPE_BOOLEAN, TYPE_SIZE, TYPE_SSIZE,
   TYPE_INT8, TYPE_UINT8, TYPE_INT16, TYPE_UINT16, TYPE_INT32, TYPE_UINT32,
   TYPE_INT64, TYPE_UINT64, TYPE_ANY, TYPE_CONSTPOINTER, TYPE_CHAR, TYPE_UCHAR,
   TYPE_INT, TYPE_UINT, TYPE_SHORT, TYPE_USHORT, TYPE_LONG, TYPE_ULONG,
   TYPE_FLOAT, TYPE_DOUBLE, TYPE_OFFSET, TYPE_INTPTR, TYPE_UINTPTR, TYPE_OBJECT,
   TYPE_VARIANT, TYPE_CHECKSUM, TYPE_ENUM, TYPE_FLAGS, TYPE_LONG_LONG,
   TYPE_LONG_ULONG, TYPE_LONG_DOUBLE, TYPE_UNICHAR, TYPE_UNICHAR2, TYPE_GTYPE,
   TYPE_STRING, TYPE_FILENAME, TYPE_BOXED, TYPE_HASH_TABLE, TYPE_DATE,
   TYPE_GSTRING, TYPE_STRV, TYPE_REGEX, TYPE_MATCH_INFO, TYPE_ARRAY,
   TYPE_BYTE_ARRAY, TYPE_PTR_ARRAY, TYPE_BYTES, TYPE_VARIANT_TYPE, TYPE_ERROR,
   TYPE_DATE_TIME, TYPE_TIME_ZONE, TYPE_IO_CHANNEL, TYPE_IO_CONDITION,
   TYPE_VARIANT_BUILDER, TYPE_VARIANT_DICT, TYPE_KEY_FILE, TYPE_MAIN_CONTEXT,
   TYPE_MAIN_LOOP, TYPE_MAPPED_FILE, TYPE_MARKUP_PARSE_CONTEXT, TYPE_SOURCE,
   TYPE_POLLFD, TYPE_THREAD, TYPE_OPTION_GROUP, TYPE_PARAM, TYPE_PARAM_CHAR,
   TYPE_PARAM_UCHAR, TYPE_PARAM_BOOLEAN, TYPE_PARAM_INT, TYPE_PARAM_UINT,
   TYPE_PARAM_LONG, TYPE_PARAM_ULONG, TYPE_PARAM_INT64, TYPE_PARAM_UINT64,
   TYPE_PARAM_UNICHAR, TYPE_PARAM_ENUM, TYPE_PARAM_FLAGS, TYPE_PARAM_FLOAT,
   TYPE_PARAM_DOUBLE, TYPE_PARAM_STRING, TYPE_PARAM_PARAM, TYPE_PARAM_BOXED,
   TYPE_PARAM_POINTER, TYPE_PARAM_VALUE_ARRAY, TYPE_PARAM_OBJECT,
   TYPE_PARAM_OVERRIDE, TYPE_PARAM_GTYPE, TYPE_PARAM_VARIANT]

/-- Denotation of a Python dict built by one pass of `m[key(e)] = e` over a
list: a lookup returns the LAST entry whose key matches (later assignments
overwrite earlier ones). -/
def dictGet (key : RegisteredType → String) (l : List RegisteredType) (k : String) : Option RegisteredType :=
  l.foldl (fun acc e => if key e = k then some e else acc) none

/-- The `registered_type_names` dict from gircheck.py, as a lookup. -/
def registered_type_names (k : String) : Option RegisteredType :=
  dictGet (fun e => e.gtype_name) REGISTERED_TYPES k

/-- The `registered_ctype_names` dict from gircheck.py, as a lookup. -/
def registered_ctype_names (k : String) : Option RegisteredType :=
  dictGet (fun e => e.ctype) REGISTERED_TYPES k

/-- The entity-kind discriminant resolved by the `isinstance` chain at the top
of `_write_type_names` (first match wins; `cls` stands for `ast.Class`). -/
inductive NodeKind where
  | function | functionmacroKind | enum | bitfield | cls | interface | callback
  | record | union | boxed | member | alias | constant | type | registered
  | unknown
deriving DecidableEq

/-- A namespace entity as `_write_type_names` observes it: the kind
discriminant plus the optional attributes the code reads.  `none` models an
attribute that is absent or `None`. -/
structure PyNode where
  kind : NodeKind
  gtype_name : Option String
  get_type : Option String
  ctype : Option String
  complete_ctype : Option String
  target_fundamental : Option String
deriving DecidableEq

/-- The `node_type` label assigned by the `isinstance` chain. -/
def nodeTypeLabel : NodeKind → String
  | .function => "function"
  | .functionmacroKind => "functionmacro"
  | .enum => "enum"
  | .bitfield => "bitfield"
  | .cls => "class"
  | .interface => "interface"
  | .callback => "callback"
  | .record => "record"
  | .union => "union"
  | .boxed => "boxed"
  | .member => "member"
  | .alias => "alias"
  | .constant => "constant"
  | .type => "type"
  | .registered => "registered"
  | .unknown => "unknown"

/-- The assignment to `fundamental_gtype` made by the `isinstance` chain:
`some` for the kinds that set it, `none` for the kinds that leave the value
carried over from the previous loop iteration. -/
def kindFundamental : NodeKind → Option String
  | .enum => some "G_TYPE_ENUM"
  | .bitfield => some "G_TYPE_FLAGS"
  | .cls => some "G_TYPE_OBJECT"
  | .interface => some "G_TYPE_INTERFACE"
  | .callback => some "G_TYPE_POINTER"
  | .record => some "G_TYPE_BOXED"
  | .union => some "G_TYPE_BOXED"
  | .boxed => some "G_TYPE_BOXED"
  | .member => some "G_TYPE_INT"
  | .constant => some "G_TYPE_INVALID"
  | _ => none

/-- The loop-carried state of `_write_type_names`: the `fundamental_gtype`
local (initialised to `G_TYPE_INVALID` before the loop) and the `ctype` local
(`none` = still unbound, reading it raises `UnboundLocalError`). -/
structure WState where
  fundamental_gtype : String
  ctypeVar : Option String
deriving DecidableEq

/-- The initial loop state of `_write_type_names`. -/
def initWState : WState := ⟨"G_TYPE_INVALID", none⟩

/-- Resolution of the `gtype_name` local (gircheck.py lines 394-399). -/
def resolveGtypeName (n : PyNode) (unregistered : Bool) : Option String :=
  match n.gtype_name with
  | some s => some s
  | none => if unregistered = false then n.target_fundamental else some ""

/-- `registered_type_names.get(gtype_name)` where the key may be `None`. -/
def lookupTypeNameOpt : Option String → Option RegisteredType
  | some s => registered_type_names s
  | none => none

/-- Resolution of the `get_type` local (gircheck.py lines 401-416).  The
error value models the `TypeError` Python raises when building the
not-found marker from an absent or `None` `gtype_name` attribute. -/
def resolveGetType (n : PyNode) (unregistered : Bool) (fg : String) (gname : Option String) : Except String String :=
  match n.get_type with
  | some g =>
    if g = "intern" then
      match lookupTypeNameOpt gname with
      | some tn => .ok tn.get_type
      | none =>
        match n.gtype_name with
        | some s => .ok (s ++ "not found")
        | none => .error "TypeError: unsupported operand for +"
    else .ok (if strStarts g "G_TYPE_" then g else g ++ "()")
  | none =>
    if unregistered = false then
      .ok ("g_type_from_name(\"" ++ pyStr n.target_fundamental ++ "\")")
    else .ok fg

/-- Resolution of the `ctype` local (gircheck.py lines 418-425): returns the
new value of the local plus the warning line written when the storage type is
missing.  When `gtype_name` is `None` the local keeps its previous value. -/
def resolveCtype (n : PyNode) (gname : Option String) (prev : Option String) : Option String × List String :=
  match n.ctype with
  | some c => (some c, [])
  | none =>
    match n.complete_ctype with
    | some c => (some c, [])
    | none =>
      match gname with
      | some g => (some g, ["/* WARNING: ctype is missing for '" ++ g ++ "' in GIR file */"])
      | none => (prev, [])

/-- The per-entity classification quadruple (kind label, `gtype_name`,
`get_type`, `ctype`) computed by one iteration of `_write_type_names`,
given the loop-carried state. -/
def classifyQuad (unregistered : Bool) (st : WState) (n : PyNode) :
    Except String (String × Option String × String × Option String) :=
  let fg := (kindFundamental n.kind).getD st.fundamental_gtype
  let gname := resolveGtypeName n unregistered
  match resolveGetType n unregistered fg gname with
  | .error e => .error e
  | .ok gt => .ok (nodeTypeLabel n.kind, gname, gt, (resolveCtype n gname st.ctypeVar).1)

/-- The identity-expression component of the classification quadruple. -/
def quadIdentity (unregistered : Bool) (st : WState) (n : PyNode) : Except String String :=
  (classifyQuad unregistered st n).map (fun q => q.2.2.1)

/-- The loop state handed to the next iteration of `_write_type_names`. -/
def nextWState (unregistered : Bool) (st : WState) (n : PyNode) : WState :=
  ⟨(kindFundamental n.kind).getD st.fundamental_gtype,
   (resolveCtype n (resolveGtypeName n unregistered) st.ctypeVar).1⟩

/-- One writer call issued by `_write_type_names`: `src` is
`writer.write_source(s)`, `line` is `writer.write_line(s)`, `lineNI` is
`writer.write_line(s, False)` (no indentation). -/
inductive WCall where
  | src (s : String)
  | line (s : String)
  | lineNI (s : String)
deriving DecidableEq

/-- The writer calls that emit one entity's row for the requested output
shape (gircheck.py lines 430-436).  The error models the
`UnboundLocalError` raised when the type-info shape reads a still-unbound
`ctype` local. -/
def rowCalls (namespace_name label : String) (gname : Option String) (gt : String)
    (ct : Option String) (infoformat : String) : Except String (List WCall) :=
  if infoformat = "signalinfo" then
    .ok [.line ("print_object_signals(stdout," ++ escQuotes gt ++ ",\"" ++ namespace_name
          ++ "\",\"" ++ label ++ "\",\"" ++ pyStr gname ++ "\");")]
  else if infoformat = "propertyinfo" then
    .ok [.line ("print_object_properties(stdout," ++ escQuotes gt ++ ",\"" ++ namespace_name
          ++ "\",\"" ++ label ++ "\",\"" ++ pyStr gname ++ "\");")]
  else
    match ct with
    | none => .error "UnboundLocalError: ctype"
    | some c =>
      .ok [.src "printf(\"%s,%s,%s,%s,%s,%s\\n\",",
           .lineNI (" \"" ++ namespace_name ++ "\", \"" ++ label ++ "\", \"" ++ pyStr gname
             ++ "\", \"" ++ c ++ "\", \"" ++ escQuotes gt
             ++ "\", g_type_fundamental_tostring((unsigned long)" ++ gt ++ "));")]

/-- One full iteration of the `_write_type_names` loop: classification, the
missing-storage-type warning, and the row emission with the excluded-type
comment wrapping (gircheck.py lines 348-439). -/
def emitEntity (exclude_gtypes : List String) (namespace_name infoformat : String)
    (unregistered : Bool) (st : WState) (n : PyNode) :
    Except String (List WCall × WState) :=
  let fg := (kindFundamental n.kind).getD st.fundamental_gtype
  let gname := resolveGtypeName n unregistered
  match resolveGetType n unregistered fg gname with
  | .error e => .error e
  | .ok gt =>
    let rc := resolveCtype n gname st.ctypeVar
    let excluded := match gname with
      | some g => decide (g ∈ exclude_gtypes)
      | none => false
    match rowCalls namespace_name (nodeTypeLabel n.kind) gname gt rc.1 infoformat with
    | .error e => .error e
    | .ok rows =>
      .ok ((rc.2.map WCall.line)
            ++ (if excluded then [WCall.src "/*"] else [])
            ++ rows
            ++ (if excluded then [WCall.line "*/"] else []),
           ⟨fg, rc.1⟩)

/-- The whole `_write_type_names` loop over a list of entities, threading the
loop-carried state and concatenating the writer calls. -/
def writeTypeNames (exclude_gtypes : List String) (namespace_name infoformat : String)
    (unregistered : Bool) : WState → List PyNode → Except String (List WCall)
  | _, [] => .ok []
  | st, n :: rest =>
    match emitEntity exclude_gtypes namespace_name infoformat unregistered st n with
    | .error e => .error e
    | .ok (calls, st2) =>
      (writeTypeNames exclude_gtypes namespace_name infoformat unregistered st2 rest).map
        (fun more => calls ++ more)

/-- Parsing of one type-info line by `extract_typeinfo` (gircheck.py lines
605-607): exactly 6 comma-separated fields, else the `ValueError` raised by
the unpacking assignment. -/
def parseTypeinfoLine (line : String) : Except String RegisteredType :=
  match splitChar ',' (pyStrip line) with
  | [_, _, gtype_name, ctype, get_type, fundamental_type] =>
    .ok ⟨gtype_name, ctype, get_type, some fundamental_type⟩
  | _ => .error "ValueError: unpack"

/-- `extract_typeinfo` over the lines of the type-info stream; the resulting
mapping keyed by `gtype_name` is looked up with `typeinfoGet`. -/
def extract_typeinfo (lines : List String) : Except String (List RegisteredType) :=
  lines.mapM parseTypeinfoLine

/-- Lookup in the `typeinfo` dict built by `extract_typeinfo` (later lines
with the same `gtype_name` overwrite earlier ones). -/
def typeinfoGet (ti : List RegisteredType) (k : String) : Option RegisteredType :=
  dictGet (fun e => e.gtype_name) ti k

/-- The three-tier 9th-column resolution of `extract_propinfo` (gircheck.py
lines 620-631): the type-info mapping, then the registry by
`type_name + is_pointer`, then the `exclude` / `?` sentinels. -/
def mergeNinthColumn (exclude_gtypes : List String) (ti : List RegisteredType)
    (type_name is_pointer : String) : String :=
  match typeinfoGet ti type_name with
  | some tn => tn.get_type
  | none =>
    match registered_ctype_names (type_name ++ is_pointer) with
    | some tn => tn.get_type
    | none => if type_name ∈ exclude_gtypes then "exclude" else "?"

/-- Python unpacking of a property-info line into exactly 8 names; any other
field count raises `ValueError`. -/
def unpack8 (l : List String) : Except String (String × String × String × String × String × String × String × String) :=
  match l with
  | [a, b, c, d, e, f, g, h] => .ok (a, b, c, d, e, f, g, h)
  | _ => .error "ValueError: unpack"

/-- Processing of one property-info line by `extract_propinfo` (gircheck.py
lines 618-633): parse 8 columns, resolve the 9th, append it. -/
def extract_propinfo_line (exclude_gtypes : List String) (ti : List RegisteredType)
    (line : String) : Except String String :=
  match unpack8 (splitChar ',' (pyStrip line)) with
  | .error e => .error e
  | .ok (_, _, _, type_name, is_pointer, _, _, _) =>
    .ok (pyStrip line ++ "," ++ mergeNinthColumn exclude_gtypes ti type_name is_pointer ++ "\n")

/-- `extract_propinfo` over the whole property-info stream; a malformed line
aborts the pass (the `ValueError` propagates). -/
def extract_propinfo (exclude_gtypes : List String) (ti : List RegisteredType)
    (lines : List String) : Except String (List String) :=
  lines.mapM (extract_propinfo_line exclude_gtypes ti)

/-- The CodeWriter state from codewriter.py: the accumulated buffer, the
comment-style tokens, whitespace configuration, the scope stack (head = most
recently pushed) and the indentation counters. -/
structure CodeWriter where
  data : String
  begin_comment : String
  middle_comment : String
  end_comment : String
  indent_char : String
  newline_char : String
  scope_stack : List String
  indent : Nat
  indent_unit : Nat
deriving DecidableEq

/-- `CodeWriter.write_newline`. -/
def wWriteNewline (st : CodeWriter) : CodeWriter :=
  { st with data := st.data ++ st.newline_char }

/-- `CodeWriter.write_source` (the `do_escape=False` path used throughout). -/
def wWriteSource (st : CodeWriter) (line : String) (ind : Bool) : CodeWriter :=
  if ind then { st with data := st.data ++ repeatStr st.indent_char st.indent ++ line }
  else { st with data := st.data ++ line }

/-- `CodeWriter.write_line`. -/
def wWriteLine (st : CodeWriter) (line : String) (ind : Bool) : CodeWriter :=
  wWriteNewline (wWriteSource st line ind)

/-- `CodeWriter.write_comment`. -/
def wWriteComment (st : CodeWriter) (text : String) : CodeWriter :=
  let lines := pySplitlines text
  if lines.length = 1 then
    wWriteLine st (st.begin_comment ++ text ++ st.end_comment) true
  else
    let st1 := wWriteLine st st.begin_comment true
    let st2 := lines.foldl (fun s l => wWriteLine s (s.middle_comment ++ l) true) st1
    let st3 :=
      if st2.end_comment ≠ "" then wWriteSource st2 st2.end_comment true
      else wWriteSource st2 st2.begin_comment true
    wWriteNewline st3

/-- `CodeWriter._open_scope`: brace annotated with the scope name. -/
def wOpenScope (st : CodeWriter) (name : String) : CodeWriter :=
  wWriteLine st ("\x7b " ++ st.begin_comment ++ name ++ st.end_comment) true

/-- `CodeWriter._close_scope`. -/
def wCloseScope (st : CodeWriter) (name : String) : CodeWriter :=
  wWriteLine st ("\x7d " ++ st.begin_comment ++ name ++ st.end_comment) true

/-- `CodeWriter.push_scope`: open marker, push the name, indent one unit. -/
def wPushScope (st : CodeWriter) (name : String) : CodeWriter :=
  let st1 := wOpenScope st name
  { st1 with scope_stack := name :: st1.scope_stack, indent := st1.indent + st1.indent_unit }

/-- `CodeWriter.pop_scope`: dedent, pop the name (an empty stack raises
`IndexError`), emit the matching close marker; returns the popped name. -/
def wPopScope (st : CodeWriter) : Except String (CodeWriter × String) :=
  let st1 := { st with indent := st.indent - st.indent_unit }
  match st1.scope_stack with
  | [] => .error "IndexError: pop from empty list"
  | name :: rest => .ok (wCloseScope { st1 with scope_stack := rest } name, name)

/-- The writer state produced by a successful `pop_scope` on a writer whose
stack is `name :: restStack`: dedent one unit, drop the name, emit the close
marker (the cons branch of `wPopScope`, named for reuse in statements). -/
def wPopTarget (st2 : CodeWriter) (restStack : List String) (name : String) : CodeWriter :=
  wCloseScope
    { st2 with
      indent := st2.indent - st2.indent_unit
      scope_stack := restStack } name

/-- `CodeWriter.enable_whitespace`. -/
def wEnableWhitespace (st : CodeWriter) : CodeWriter :=
  { st with indent_char := " ", newline_char := "\n" }

/-- `CodeWriter.disable_whitespace`. -/
def wDisableWhitespace (st : CodeWriter) : CodeWriter :=
  { st with indent_char := "", newline_char := "" }

/-- The license text written by `CodeWriter.__init__` (the triple-quoted
argument of the `write_comment` call, verbatim). -/
def licenseText : String :=
  "\n\nThis library is free software; you can redistribute it and/or\nmodify it under the terms of the GNU Lesser General Public\nLicense as published by the Free Software Foundation; either\nversion 2 of the License, or (at your option) any later version.\n\nThis library is distributed in the hope that it will be useful,\nbut WITHOUT ANY WARRANTY; without even the implied warranty of\nMERCHANTABILITY or FITNESS FOR A PARTICULAR PURPOSE.  See the GNU\nLesser General Public License for more details.\n\nYou should have received a copy of the GNU Lesser General Public\nLicense along with this library; if not, write to the\nFree Software Foundation, Inc., 59 Temple Place - Suite 330,\nBoston, MA 02111-1307, USA.\n\n\n"

/-- `CodeWriter.__init__`: select the comment-token triple from the
`begin_comment` argument, initialise the stack and indentation, enable
whitespace, then write the license comment block. -/
def CodeWriter.init (bc : String) : CodeWriter :=
  let toks :=
    if bc = "/* " then (bc, " * ", " */")
    else if bc = "(* " then (bc, " * ", " *)")
    else if bc = "# " then (bc, "# ", "")
    else if bc = "// " then (bc, "// ", "")
    else ("", "", "")
  let st : CodeWriter :=
    { data := "", begin_comment := toks.1, middle_comment := toks.2.1,
      end_comment := toks.2.2, indent_char := " ", newline_char := "\n",
      scope_stack := [], indent := 0, indent_unit := 2 }
  wWriteComment st licenseText

/-- `CodeWriter.get_source`. -/
def CodeWriter.get_source (st : CodeWriter) : String := st.data

/-- `CodeWriter.scopecontext`: push, run the unit of work (which transforms
the writer and may also raise, returning `some` error), and pop on every exit
path before the work's outcome is propagated. -/
def wScopecontext (name : String) (work : CodeWriter → CodeWriter × Option String)
    (st : CodeWriter) : Except String (CodeWriter × Option String) :=
  let st1 := wPushScope st name
  let res := work st1
  match wPopScope res.1 with
  | .error e => .error e
  | .ok (st3, _) => .ok (st3, res.2)

/-- One public CodeWriter operation, for quantifying over call sequences. -/
inductive WOp where
  | writeNewline
  | writeSource (line : String) (ind : Bool)
  | writeLine (line : String) (ind : Bool)
  | writeComment (text : String)
  | pushScope (name : String)
  | popScope
  | enableWhitespace
  | disableWhitespace

/-- Apply one CodeWriter operation. -/
def applyWOp (op : WOp) (st : CodeWriter) : Except String CodeWriter :=
  match op with
  | .writeNewline => .ok (wWriteNewline st)
  | .writeSource l i => .ok (wWriteSource st l i)
  | .writeLine l i => .ok (wWriteLine st l i)
  | .writeComment t => .ok (wWriteComment st t)
  | .pushScope n => .ok (wPushScope st n)
  | .popScope => (wPopScope st).map (fun p => p.1)
  | .enableWhitespace => .ok (wEnableWhitespace st)
  | .disableWhitespace => .ok (wDisableWhitespace st)

/-- Run a sequence of CodeWriter operations, stopping at the first raise. -/
def runWOps : List WOp → CodeWriter → Except String CodeWriter
  | [], st => .ok st
  | op :: ops, st =>
    match applyWOp op st with
    | .error e => .error e
    | .ok st2 => runWOps ops st2

/-- A class entity with an explicit identity expression, used at concrete
inputs below. -/
def nodeFooProp : PyNode := ⟨.cls, some "Foo", some "foo_get_type", some "Foo", none, none⟩

/-- A class entity with the `intern` sentinel and a typeName missing from the
registry. -/
def nodeWidgetIntern : PyNode := ⟨.cls, some "Widget", some "intern", none, none, none⟩

/-- An alias entity with the `intern` sentinel and a typeName present in the
registry. -/
def nodeGint32Intern : PyNode := ⟨.alias, some "gint32", some "intern", none, none, none⟩

/-- A bare enum entity (no attributes set). -/
def nodeEnumBare : PyNode := ⟨.enum, none, none, none, none, none⟩

/-- A bare function entity (no attributes set). -/
def nodeFunctionBare : PyNode := ⟨.function, none, none, none, none, none⟩

/-- A function entity with a declared identity expression and storage type
but no `gtype_name` and no `target_fundamental`, so that in registered mode
its typeName resolves to `None`. -/
def nodeNoName : PyNode := ⟨.function, none, some "foo_get_type", some "foo", none, none⟩

set_option maxRecDepth 10000

set_option maxHeartbeats 4000000

/-- Claim C6: the registry's two indices are built by one pass over the fixed
entry list; every entry is found by its own `gtype_name`; lookup by an
entry's own `ctype` returns the LAST entry of the list with that `ctype`
(last-write-wins, no error), which coincides with the entry itself whenever
its `ctype` is unique; the ordered entry list itself keeps all 94 entries. -/
theorem registry_dual_index :
    REGISTERED_TYPES.length = 94 ∧
    ∀ e ∈ REGISTERED_TYPES,
      registered_type_names e.gtype_name = some e ∧
      registered_ctype_names e.ctype =
        (REGISTERED_TYPES.filter (fun f => decide (f.ctype = e.ctype))).getLast? ∧
      (registered_ctype_names e.ctype).isSome = true ∧
      ((REGISTERED_TYPES.filter (fun f => decide (f.ctype = e.ctype))).length = 1 →
        registered_ctype_names e.ctype = some e) := by
  decide

/-- Claim C6 witness: the guarantees instantiated at the `gint` entry. -/
theorem registry_dual_index_witness :
    registered_type_names TYPE_INT.gtype_name = some TYPE_INT ∧
    registered_ctype_names TYPE_INT.ctype =
      (REGISTERED_TYPES.filter (fun f => decide (f.ctype = TYPE_INT.ctype))).getLast? ∧
    (registered_ctype_names TYPE_INT.ctype).isSome = true ∧
    ((REGISTERED_TYPES.filter (fun f => decide (f.ctype = TYPE_INT.ctype))).length = 1 →
      registered_ctype_names TYPE_INT.ctype = some TYPE_INT) :=
  registry_dual_index.2 TYPE_INT (by decide)

/-- Claim C2: for a well-formed 8-column property-info row, the merge pass
appends a 9th column resolved by the three-tier fallback: the type-info
mapping by declared type name, then the registry keyed by the concatenation
of the declared storage-type name and the pointer-marker flag, then the
`exclude` / `?` sentinels depending on exclusion membership. -/
theorem merge_ninth_column_three_tier
    (exclude_gtypes : List String) (ti : List RegisteredType) (line : String)
    (a b c tn ip f g h : String)
    (h8 : splitChar ',' (pyStrip line) = [a, b, c, tn, ip, f, g, h]) :
    extract_propinfo_line exclude_gtypes ti line =
      .ok (pyStrip line ++ "," ++ mergeNinthColumn exclude_gtypes ti tn ip ++ "\n") ∧
    (∀ e, typeinfoGet ti tn = some e →
      mergeNinthColumn exclude_gtypes ti tn ip = e.get_type) ∧
    (typeinfoGet ti tn = none →
      ∀ e, registered_ctype_names (tn ++ ip) = some e →
        mergeNinthColumn exclude_gtypes ti tn ip = e.get_type) ∧
    (typeinfoGet ti tn = none → registered_ctype_names (tn ++ ip) = none →
      (tn ∈ exclude_gtypes → mergeNinthColumn exclude_gtypes ti tn ip = "exclude") ∧
      (tn ∉ exclude_gtypes → mergeNinthColumn exclude_gtypes ti tn ip = "?")) := by
  refine ⟨?_, ?_, ?_, ?_⟩
  · simp [extract_propinfo_line, h8, unpack8]
  · intro e he
    simp [mergeNinthColumn, he]
  · intro hn e he
    simp [mergeNinthColumn, hn, he]
  · intro hn hr
    refine ⟨fun hm => ?_, fun hm => ?_⟩
    · simp [mergeNinthColumn, hn, hr, hm]
    · simp [mergeNinthColumn, hn, hr, hm]

/-- Claim C2 witness: merging a concrete 8-column row against an empty
type-info mapping resolves tier (b) through the registry (`gchar` + `*`
matches the `gchar*` storage type) and appends `G_TYPE_STRING`. -/
theorem merge_ninth_column_three_tier_witness :
    extract_propinfo_line [] [] "Gtk,class,GtkWidget,gchar,*,rw,name,G_TYPE_STRING" =
      .ok ("Gtk,class,GtkWidget,gchar,*,rw,name,G_TYPE_STRING" ++ "," ++
        mergeNinthColumn [] [] "gchar" "*" ++ "\n") ∧
    (∀ e, typeinfoGet [] "gchar" = some e →
      mergeNinthColumn [] [] "gchar" "*" = e.get_type) ∧
    (typeinfoGet [] "gchar" = none →
      ∀ e, registered_ctype_names ("gchar" ++ "*") = some e →
        mergeNinthColumn [] [] "gchar" "*" = e.get_type) ∧
    (typeinfoGet [] "gchar" = none → registered_ctype_names ("gchar" ++ "*") = none →
      ("gchar" ∈ ([] : List String) → mergeNinthColumn [] [] "gchar" "*" = "exclude") ∧
      ("gchar" ∉ ([] : List String) → mergeNinthColumn [] [] "gchar" "*" = "?")) :=
  merge_ninth_column_three_tier [] [] "Gtk,class,GtkWidget,gchar,*,rw,name,G_TYPE_STRING"
    "Gtk" "class" "GtkWidget" "gchar" "*" "rw" "name" "G_TYPE_STRING" rfl

/-- Helper: unpacking a list whose length is not 8 raises the `ValueError`. -/
theorem unpack8_ne_eight (l : List String) (h : l.length ≠ 8) :
    unpack8 l = .error "ValueError: unpack" := by
  cases l with
  | nil => rfl
  | cons x1 l => cases l with
    | nil => rfl
    | cons x2 l => cases l with
      | nil => rfl
      | cons x3 l => cases l with
        | nil => rfl
        | cons x4 l => cases l with
          | nil => rfl
          | cons x5 l => cases l with
            | nil => rfl
            | cons x6 l => cases l with
              | nil => rfl
              | cons x7 l => cases l with
                | nil => rfl
                | cons x8 l => cases l with
                  | nil => simp at h
                  | cons x9 l => rfl

/-- Claim C7: any merge-mode property row whose comma-split field count is
not 8 (in particular a 9-column row produced by a previous merge run) makes
the merge pass fail with the hard parse error instead of producing output. -/
theorem merge_wrong_arity_fails (exclude_gtypes : List String) (ti : List RegisteredType)
    (line : String) (h : (splitChar ',' (pyStrip line)).length ≠ 8) :
    extract_propinfo_line exclude_gtypes ti line = .error "ValueError: unpack" := by
  simp [extract_propinfo_line, unpack8_ne_eight _ h]

/-- Claim C7 witness: a 9-column row (the shape a previous merge run emits)
is rejected. -/
theorem merge_wrong_arity_fails_witness :
    extract_propinfo_line [] [] "Gtk,class,GtkWidget,gchar,*,rw,name,G_TYPE_STRING,G_TYPE_STRING" =
      .error "ValueError: unpack" :=
  merge_wrong_arity_fails [] [] "Gtk,class,GtkWidget,gchar,*,rw,name,G_TYPE_STRING,G_TYPE_STRING"
    (by decide)

/-- Claim C8: an explicit identity expression other than the `intern`
sentinel is kept verbatim when it starts with the registry constant prefix
`G_TYPE_`, and otherwise gets the call suffix `()` appended. -/
theorem call_suffix_append (u : Bool) (st : WState) (n : PyNode) (g : String)
    (hg : n.get_type = some g) (hni : g ≠ "intern") :
    quadIdentity u st n = .ok (if strStarts g "G_TYPE_" then g else g ++ "()") := by
  simp [quadIdentity, classifyQuad, resolveGetType, hg, hni, Except.map]

/-- Claim C8 witness: `widget_get_type` lacks the prefix and becomes
`widget_get_type()`; `G_TYPE_OBJECT` has it and is left unchanged. -/
theorem call_suffix_append_witness :
    quadIdentity false initWState ⟨.cls, some "Widget", some "widget_get_type", some "Widget", none, none⟩ =
      .ok "widget_get_type()" ∧
    quadIdentity false initWState ⟨.cls, some "GObject", some "G_TYPE_OBJECT", some "GObject", none, none⟩ =
      .ok "G_TYPE_OBJECT" :=
  ⟨call_suffix_append false initWState ⟨.cls, some "Widget", some "widget_get_type", some "Widget", none, none⟩
      "widget_get_type" rfl (by decide),
   call_suffix_append false initWState ⟨.cls, some "GObject", some "G_TYPE_OBJECT", some "GObject", none, none⟩
      "G_TYPE_OBJECT" rfl (by decide)⟩

/-- Claim C3 counterexample: for the `intern` sentinel with typeName
`Widget` absent from the registry, the code produces the marker
`Widgetnot found` — the declared name concatenated directly with
`not found` — not the spec's `Widget not found`. -/
theorem intern_notfound_counterexample :
    quadIdentity false initWState nodeWidgetIntern = .ok "Widgetnot found" ∧
    "Widgetnot found" ≠ "Widget not found" :=
  ⟨rfl, by decide⟩

/-- Claim C3 (amended): for an `intern` identity expression, a registry hit
on the resolved typeName yields that entry's identity expression; on a miss
the resolved identity is the entity's declared `gtype_name` concatenated
directly (no separating space) with the text `not found`. -/
theorem intern_resolution :
    (∀ (u : Bool) (st : WState) (n : PyNode) (g : String) (e : RegisteredType),
      n.get_type = some "intern" → resolveGtypeName n u = some g →
      registered_type_names g = some e →
      quadIdentity u st n = .ok e.get_type) ∧
    (∀ (u : Bool) (st : WState) (n : PyNode) (s : String),
      n.get_type = some "intern" →
      lookupTypeNameOpt (resolveGtypeName n u) = none →
      n.gtype_name = some s →
      quadIdentity u st n = .ok (s ++ "not found")) := by
  constructor
  · intro u st n g e hget hg he
    simp [quadIdentity, classifyQuad, resolveGetType, hget, hg, lookupTypeNameOpt, he, Except.map]
  · intro u st n s hget hn hname
    simp [quadIdentity, classifyQuad, resolveGetType, hget, hn, hname, Except.map]

/-- Claim C3 witness: `intern` with `gint32` resolves through the registry to
`G_TYPE_INT`; `intern` with the unregistered `Widget` yields the concatenated
not-found marker. -/
theorem intern_resolution_witness :
    quadIdentity false initWState nodeGint32Intern = .ok "G_TYPE_INT" ∧
    quadIdentity false initWState ⟨.interface, some "Widget", some "intern", none, none, none⟩ =
      .ok "Widgetnot found" :=
  ⟨intern_resolution.1 false initWState nodeGint32Intern "gint32" TYPE_INT32 rfl rfl rfl,
   intern_resolution.2 false initWState ⟨.interface, some "Widget", some "intern", none, none, none⟩
      "Widget" rfl rfl rfl⟩

/-- Helper: the identity resolution ignores the carried fundamental fallback
whenever the entity declares an explicit identity expression. -/
theorem resolveGetType_of_some (n : PyNode) (u : Bool) (g : String) (gname : Option String)
    (fg1 fg2 : String) (h : n.get_type = some g) :
    resolveGetType n u fg1 gname = resolveGetType n u fg2 gname := by
  simp [resolveGetType, h]

/-- Helper: the identity resolution ignores the carried fundamental fallback
in registered mode. -/
theorem resolveGetType_false (n : PyNode) (gname : Option String) (fg1 fg2 : String) :
    resolveGetType n false fg1 gname = resolveGetType n false fg2 gname := by
  cases h : n.get_type with
  | some g => exact resolveGetType_of_some n false g gname fg1 fg2 h
  | none => simp [resolveGetType, h]

/-- Helper: the identity component of the quadruple agrees across two carried
states as soon as the two identity resolutions agree. -/
theorem quadIdentity_congr (u : Bool) (st st2 : WState) (n : PyNode)
    (h : resolveGetType n u ((kindFundamental n.kind).getD st.fundamental_gtype) (resolveGtypeName n u)
       = resolveGetType n u ((kindFundamental n.kind).getD st2.fundamental_gtype) (resolveGtypeName n u)) :
    quadIdentity u st n = quadIdentity u st2 n := by
  simp only [quadIdentity, classifyQuad]
  rw [h]
  cases resolveGetType n u ((kindFundamental n.kind).getD st2.fundamental_gtype) (resolveGtypeName n u) with
  | error e => rfl
  | ok gt => rfl

/-- Claim C4: the fundamental fallback identities fixed by the nine
registrable kinds match the table (enum: ENUM, bitfield: FLAGS, class:
OBJECT, interface: INTERFACE, callback: POINTER, record/union/boxed: BOXED,
member: INT), and the fallback is used as the identity expression ONLY in
unregistered mode with no declared identity expression: with a declared
expression, or in registered mode, the resolved identity does not depend on
the carried fallback at all. -/
theorem fundamental_fallback_table :
    (kindFundamental .enum = some "G_TYPE_ENUM" ∧
     kindFundamental .bitfield = some "G_TYPE_FLAGS" ∧
     kindFundamental .cls = some "G_TYPE_OBJECT" ∧
     kindFundamental .interface = some "G_TYPE_INTERFACE" ∧
     kindFundamental .callback = some "G_TYPE_POINTER" ∧
     kindFundamental .record = some "G_TYPE_BOXED" ∧
     kindFundamental .union = some "G_TYPE_BOXED" ∧
     kindFundamental .boxed = some "G_TYPE_BOXED" ∧
     kindFundamental .member = some "G_TYPE_INT") ∧
    (∀ (st : WState) (n : PyNode) (v : String),
      n.get_type = none → kindFundamental n.kind = some v →
      quadIdentity true st n = .ok v) ∧
    (∀ (u : Bool) (st st2 : WState) (n : PyNode) (g : String),
      n.get_type = some g → quadIdentity u st n = quadIdentity u st2 n) ∧
    (∀ (st st2 : WState) (n : PyNode),
      quadIdentity false st n = quadIdentity false st2 n) := by
  refine ⟨by decide, ?_, ?_, ?_⟩
  · intro st n v hget hkf
    simp [quadIdentity, classifyQuad, resolveGetType, hget, hkf, Except.map]
  · intro u st st2 n g hget
    exact quadIdentity_congr u st st2 n (resolveGetType_of_some n u g _ _ _ hget)
  · intro st st2 n
    exact quadIdentity_congr false st st2 n (resolveGetType_false n _ _ _)

/-- Claim C4 witness: a bare enum entity in unregistered mode falls back to
`G_TYPE_ENUM`; an entity with a declared identity expression resolves it
identically under two different carried states. -/
theorem fundamental_fallback_table_witness :
    quadIdentity true initWState nodeEnumBare = .ok "G_TYPE_ENUM" ∧
    quadIdentity false ⟨"G_TYPE_ENUM", some "x"⟩ nodeFooProp =
      quadIdentity false initWState nodeFooProp :=
  ⟨fundamental_fallback_table.2.1 initWState nodeEnumBare "G_TYPE_ENUM" rfl rfl,
   fundamental_fallback_table.2.2.2 ⟨"G_TYPE_ENUM", some "x"⟩ initWState nodeFooProp⟩

/-- Claim C5 counterexample: the same bare function entity classifies to
identity `G_TYPE_INVALID` when processed first, but to `G_TYPE_ENUM` when
preceded by a bare enum entity — the `fundamental_gtype` local leaks across
loop iterations, so classification is not a function of the entity alone. -/
theorem classification_order_dependent_counterexample :
    nextWState true initWState nodeEnumBare = ⟨"G_TYPE_ENUM", some ""⟩ ∧
    quadIdentity true (nextWState true initWState nodeEnumBare) nodeFunctionBare =
      .ok "G_TYPE_ENUM" ∧
    quadIdentity true initWState nodeFunctionBare = .ok "G_TYPE_INVALID" ∧
    quadIdentity true (nextWState true initWState nodeEnumBare) nodeFunctionBare ≠
      quadIdentity true initWState nodeFunctionBare := by
  refine ⟨rfl, rfl, rfl, ?_⟩
  intro h
  rw [show quadIdentity true (nextWState true initWState nodeEnumBare) nodeFunctionBare =
        .ok "G_TYPE_ENUM" from rfl,
      show quadIdentity true initWState nodeFunctionBare = .ok "G_TYPE_INVALID" from rfl] at h
  injection h with h2
  exact absurd h2 (by decide)

/-- Claim C5 (amended): the classification quadruple is a function of the
entity, the registry, the exclusion sets, the mode AND the loop-carried
state (the pending fundamental fallback and the previous storage-type
local); it is independent of the preceding entities whenever the entity's
kind fixes a fundamental fallback (or an identity expression is declared, or
the mode is registered) and its storage type is resolvable from the entity
itself. -/
theorem classification_state_independence (u : Bool) (st st2 : WState) (n : PyNode)
    (h1 : kindFundamental n.kind ≠ none ∨ n.get_type ≠ none ∨ u = false)
    (h2 : n.ctype ≠ none ∨ n.complete_ctype ≠ none ∨ resolveGtypeName n u ≠ none) :
    classifyQuad u st n = classifyQuad u st2 n := by
  have hget : resolveGetType n u ((kindFundamental n.kind).getD st.fundamental_gtype)
        (resolveGtypeName n u)
      = resolveGetType n u ((kindFundamental n.kind).getD st2.fundamental_gtype)
        (resolveGtypeName n u) := by
    rcases h1 with hk | hgt | hu
    · obtain ⟨v, hv⟩ := Option.ne_none_iff_exists'.mp hk
      simp [hv]
    · obtain ⟨g, hg⟩ := Option.ne_none_iff_exists'.mp hgt
      exact resolveGetType_of_some n u g _ _ _ hg
    · subst hu
      exact resolveGetType_false n _ _ _
  have hct : (resolveCtype n (resolveGtypeName n u) st.ctypeVar).1
      = (resolveCtype n (resolveGtypeName n u) st2.ctypeVar).1 := by
    rcases h2 with hc | hcc | hgn
    · obtain ⟨c, hc2⟩ := Option.ne_none_iff_exists'.mp hc
      simp [resolveCtype, hc2]
    · obtain ⟨c, hc2⟩ := Option.ne_none_iff_exists'.mp hcc
      cases h3 : n.ctype with
      | some c2 => simp [resolveCtype, h3]
      | none => simp [resolveCtype, h3, hc2]
    · obtain ⟨g, hg2⟩ := Option.ne_none_iff_exists'.mp hgn
      cases h3 : n.ctype with
      | some c2 => simp [resolveCtype, h3]
      | none =>
        cases h4 : n.complete_ctype with
        | some c2 => simp [resolveCtype, h3, h4]
        | none => simp [resolveCtype, h3, h4, hg2]
  simp only [classifyQuad]
  rw [hget]
  cases resolveGetType n u ((kindFundamental n.kind).getD st2.fundamental_gtype)
      (resolveGtypeName n u) with
  | error e => rfl
  | ok gt => rw [hct]

/-- Claim C5 witness: a bare enum entity (its kind fixes a fallback and its
storage type falls back to the resolved typeName) classifies identically
under two different carried states. -/
theorem classification_state_independence_witness :
    classifyQuad true ⟨"G_TYPE_OBJECT", some "stale"⟩ nodeEnumBare =
      classifyQuad true initWState nodeEnumBare :=
  classification_state_independence true ⟨"G_TYPE_OBJECT", some "stale"⟩ initWState nodeEnumBare
    (Or.inl (by decide)) (Or.inr (Or.inr (by decide)))

/-- Claim C1 counterexample: a property-info row whose resolved typeName is
in the excluded set IS wrapped between the comment-open and comment-close
markers — the wrapping is not limited to the type-info shape, so excluded
property-info rows are not emitted undecorated. -/
theorem exclusion_wrapping_counterexample :
    emitEntity ["Foo"] "NS" "propertyinfo" false initWState nodeFooProp =
      .ok ([WCall.src "/*",
            WCall.line "print_object_properties(stdout,foo_get_type(),\"NS\",\"class\",\"Foo\");",
            WCall.line "*/"],
           ⟨"G_TYPE_OBJECT", some "Foo"⟩) ∧
    [WCall.src "/*",
     WCall.line "print_object_properties(stdout,foo_get_type(),\"NS\",\"class\",\"Foo\");",
     WCall.line "*/"] ≠
      [WCall.line "print_object_properties(stdout,foo_get_type(),\"NS\",\"class\",\"Foo\");"] :=
  ⟨rfl, by decide⟩

/-- Claim C1 (amended): in EVERY output shape (type-info, property-info and
signal-info alike), an entity whose resolved typeName is in the excluded set
has its row emitted between a comment-open marker immediately before it and
a comment-close marker immediately after it; an entity whose typeName is
absent from the set, or whose typeName resolved to `None`, has its row
emitted undecorated. -/
theorem exclusion_wrapping_all_shapes
    (exclude_gtypes : List String) (namespace_name infoformat : String) (u : Bool)
    (st : WState) (n : PyNode) (gt : String) (rows : List WCall)
    (hgt : resolveGetType n u ((kindFundamental n.kind).getD st.fundamental_gtype)
      (resolveGtypeName n u) = .ok gt)
    (hrows : rowCalls namespace_name (nodeTypeLabel n.kind) (resolveGtypeName n u) gt
      (resolveCtype n (resolveGtypeName n u) st.ctypeVar).1 infoformat = .ok rows) :
    (∀ g, resolveGtypeName n u = some g → g ∈ exclude_gtypes →
      emitEntity exclude_gtypes namespace_name infoformat u st n =
        .ok ((resolveCtype n (resolveGtypeName n u) st.ctypeVar).2.map WCall.line
              ++ [WCall.src "/*"] ++ rows ++ [WCall.line "*/"],
             ⟨(kindFundamental n.kind).getD st.fundamental_gtype,
              (resolveCtype n (resolveGtypeName n u) st.ctypeVar).1⟩)) ∧
    (∀ g, resolveGtypeName n u = some g → g ∉ exclude_gtypes →
      emitEntity exclude_gtypes namespace_name infoformat u st n =
        .ok ((resolveCtype n (resolveGtypeName n u) st.ctypeVar).2.map WCall.line ++ rows,
             ⟨(kindFundamental n.kind).getD st.fundamental_gtype,
              (resolveCtype n (resolveGtypeName n u) st.ctypeVar).1⟩)) ∧
    (resolveGtypeName n u = none →
      emitEntity exclude_gtypes namespace_name infoformat u st n =
        .ok ((resolveCtype n (resolveGtypeName n u) st.ctypeVar).2.map WCall.line ++ rows,
             ⟨(kindFundamental n.kind).getD st.fundamental_gtype,
              (resolveCtype n (resolveGtypeName n u) st.ctypeVar).1⟩)) := by
  refine ⟨?_, ?_, ?_⟩
  · intro g hg hmem
    have hgt2 := hgt
    have hrows2 := hrows
    rw [hg] at hgt2 hrows2 ⊢
    simp [emitEntity, hg, hgt2, hrows2, hmem]
  · intro g hg hmem
    have hgt2 := hgt
    have hrows2 := hrows
    rw [hg] at hgt2 hrows2 ⊢
    simp [emitEntity, hg, hgt2, hrows2, hmem]
  · intro hg
    have hgt2 := hgt
    have hrows2 := hrows
    rw [hg] at hgt2 hrows2 ⊢
    simp [emitEntity, hg, hgt2, hrows2]

/-- Claim C1 witness: the wrapping applied to an excluded entity in the
signal-info shape, the undecorated emission of a non-excluded entity in the
property-info shape, and the undecorated emission of an entity whose
typeName resolved to `None` even though the excluded set contains the
rendered text `None`. -/
theorem exclusion_wrapping_all_shapes_witness :
    emitEntity ["Foo"] "NS" "signalinfo" false initWState nodeFooProp =
      .ok ([WCall.src "/*",
            WCall.line "print_object_signals(stdout,foo_get_type(),\"NS\",\"class\",\"Foo\");",
            WCall.line "*/"],
           ⟨"G_TYPE_OBJECT", some "Foo"⟩) ∧
    emitEntity ["Bar"] "NS" "propertyinfo" false initWState nodeFooProp =
      .ok ([WCall.line "print_object_properties(stdout,foo_get_type(),\"NS\",\"class\",\"Foo\");"],
           ⟨"G_TYPE_OBJECT", some "Foo"⟩) ∧
    emitEntity ["None"] "NS" "propertyinfo" false initWState nodeNoName =
      .ok ([WCall.line "print_object_properties(stdout,foo_get_type(),\"NS\",\"function\",\"None\");"],
           ⟨"G_TYPE_INVALID", some "foo"⟩) :=
  ⟨(exclusion_wrapping_all_shapes ["Foo"] "NS" "signalinfo" false initWState nodeFooProp
      "foo_get_type()"
      [WCall.line "print_object_signals(stdout,foo_get_type(),\"NS\",\"class\",\"Foo\");"]
      rfl rfl).1 "Foo" rfl (by decide),
   (exclusion_wrapping_all_shapes ["Bar"] "NS" "propertyinfo" false initWState nodeFooProp
      "foo_get_type()"
      [WCall.line "print_object_properties(stdout,foo_get_type(),\"NS\",\"class\",\"Foo\");"]
      rfl rfl).2.1 "Foo" rfl (by decide),
   (exclusion_wrapping_all_shapes ["None"] "NS" "propertyinfo" false initWState nodeNoName
      "foo_get_type()"
      [WCall.line "print_object_properties(stdout,foo_get_type(),\"NS\",\"function\",\"None\");"]
      rfl rfl).2.2 rfl⟩

/-- Helper: string append acts as list append on the character data. -/
theorem strData_append (a b : String) : (a ++ b).data = a.data ++ b.data := rfl

/-- Helper: string append is associative. -/
theorem strAppend_assoc (a b c : String) : (a ++ b) ++ c = a ++ (b ++ c) := by
  cases a with | mk la => cases b with | mk lb => cases c with | mk lc =>
    show String.mk ((la ++ lb) ++ lc) = String.mk (la ++ (lb ++ lc))
    rw [List.append_assoc]

/-- Helper: a list is a Boolean prefix of itself followed by anything. -/
theorem isPrefixOf_append_self (l t : List Char) : l.isPrefixOf (l ++ t) = true := by
  induction l with
  | nil => simp [List.isPrefixOf]
  | cons c l ih => simp [List.isPrefixOf, ih]

/-- Helper: `push_scope` stacks the name and adds one indentation unit. -/
theorem wPushScope_fields (st : CodeWriter) (name : String) :
    (wPushScope st name).scope_stack = name :: st.scope_stack ∧
    (wPushScope st name).indent = st.indent + st.indent_unit ∧
    (wPushScope st name).indent_unit = st.indent_unit := by
  refine ⟨?_, ?_, ?_⟩ <;>
    simp [wPushScope, wOpenScope, wWriteLine, wWriteSource, wWriteNewline]

/-- Helper: `_close_scope` only appends text; stack and indentation are
untouched. -/
theorem wCloseScope_fields (st : CodeWriter) (name : String) :
    (wCloseScope st name).scope_stack = st.scope_stack ∧
    (wCloseScope st name).indent = st.indent := by
  refine ⟨?_, ?_⟩ <;> simp [wCloseScope, wWriteLine, wWriteSource, wWriteNewline]

/-- Claim C9: the scoped-acquisition form runs the matching close (popping
the very scope name it pushed and restoring the indentation) on every exit
path -- the unit of work's outcome, error or not, is propagated unchanged --
so afterwards the scope stack and indentation equal their values from before
the construct, provided the unit of work left the pushed scope intact. -/
theorem scopecontext_balanced (name : String)
    (work : CodeWriter → CodeWriter × Option String) (st st2 : CodeWriter) (err : Option String)
    (hw : work (wPushScope st name) = (st2, err))
    (hstack : st2.scope_stack = (wPushScope st name).scope_stack)
    (hind : st2.indent = (wPushScope st name).indent)
    (hunit : st2.indent_unit = st.indent_unit) :
    wScopecontext name work st = .ok (wPopTarget st2 st.scope_stack name, err) ∧
    wPopScope st2 = .ok (wPopTarget st2 st.scope_stack name, name) ∧
    (wPopTarget st2 st.scope_stack name).scope_stack = st.scope_stack ∧
    (wPopTarget st2 st.scope_stack name).indent = st.indent := by
  have hps := wPushScope_fields st name
  have hpop : wPopScope st2 = .ok (wPopTarget st2 st.scope_stack name, name) := by
    simp only [wPopScope, wPopTarget]
    rw [show ({ st2 with indent := st2.indent - st2.indent_unit } : CodeWriter).scope_stack
          = name :: st.scope_stack from hstack.trans hps.1]
  refine ⟨?_, hpop, ?_, ?_⟩
  · simp only [wScopecontext, hw, hpop]
  · exact (wCloseScope_fields _ _).1
  · rw [wPopTarget, (wCloseScope_fields _ _).2]
    show st2.indent - st2.indent_unit = st.indent
    rw [hind, hps.2.1, hunit, Nat.add_sub_cancel]

/-- Claim C9 witness: a unit of work that writes a line and then raises an
error still leaves the scope stack and indentation of a fresh writer
restored, with the error propagated. -/
theorem scopecontext_balanced_witness :
    wScopecontext "function" (fun s => (wWriteLine s "hi" true, some "boom")) (CodeWriter.init "/* ") =
      .ok (wPopTarget (wWriteLine (wPushScope (CodeWriter.init "/* ") "function") "hi" true)
            (CodeWriter.init "/* ").scope_stack "function", some "boom") ∧
    wPopScope (wWriteLine (wPushScope (CodeWriter.init "/* ") "function") "hi" true) =
      .ok (wPopTarget (wWriteLine (wPushScope (CodeWriter.init "/* ") "function") "hi" true)
            (CodeWriter.init "/* ").scope_stack "function", "function") ∧
    (wPopTarget (wWriteLine (wPushScope (CodeWriter.init "/* ") "function") "hi" true)
      (CodeWriter.init "/* ").scope_stack "function").scope_stack =
      (CodeWriter.init "/* ").scope_stack ∧
    (wPopTarget (wWriteLine (wPushScope (CodeWriter.init "/* ") "function") "hi" true)
      (CodeWriter.init "/* ").scope_stack "function").indent =
      (CodeWriter.init "/* ").indent :=
  scopecontext_balanced "function" (fun s => (wWriteLine s "hi" true, some "boom"))
    (CodeWriter.init "/* ") (wWriteLine (wPushScope (CodeWriter.init "/* ") "function") "hi" true)
    (some "boom") rfl rfl rfl rfl

/-- Helper: appending the empty string is the identity. -/
theorem strAppend_empty (a : String) : a ++ "" = a := by
  cases a with | mk l =>
    show String.mk (l ++ []) = String.mk l
    rw [List.append_nil]

/-- Helper: `write_source` only appends to the buffer. -/
theorem wWriteSource_data (st : CodeWriter) (l : String) (i : Bool) :
    ∃ t, (wWriteSource st l i).data = st.data ++ t := by
  cases i
  · exact ⟨l, rfl⟩
  · exact ⟨repeatStr st.indent_char st.indent ++ l, by simp [wWriteSource, strAppend_assoc]⟩

/-- Helper: `write_line` only appends to the buffer. -/
theorem wWriteLine_data (st : CodeWriter) (l : String) (i : Bool) :
    ∃ t, (wWriteLine st l i).data = st.data ++ t := by
  obtain ⟨t, ht⟩ := wWriteSource_data st l i
  refine ⟨t ++ (wWriteSource st l i).newline_char, ?_⟩
  simp [wWriteLine, wWriteNewline, ht, strAppend_assoc]

/-- Helper: the comment-body loop of `write_comment` only appends. -/
theorem foldl_comment_data (lines : List String) (st : CodeWriter) :
    ∃ t, (lines.foldl (fun s l => wWriteLine s (s.middle_comment ++ l) true) st).data =
      st.data ++ t := by
  induction lines generalizing st with
  | nil => exact ⟨"", (strAppend_empty _).symm⟩
  | cons l ls ih =>
    obtain ⟨t1, h1⟩ := wWriteLine_data st (st.middle_comment ++ l) true
    obtain ⟨t2, h2⟩ := ih (wWriteLine st (st.middle_comment ++ l) true)
    refine ⟨t1 ++ t2, ?_⟩
    rw [List.foldl_cons, h2, h1, strAppend_assoc]

/-- Helper: `write_comment` only appends to the buffer. -/
theorem wWriteComment_data (st : CodeWriter) (text : String) :
    ∃ t, (wWriteComment st text).data = st.data ++ t := by
  simp only [wWriteComment]
  by_cases h : (pySplitlines text).length = 1
  · simp only [h, if_true]
    exact wWriteLine_data st (st.begin_comment ++ text ++ st.end_comment) true
  · simp only [h, if_false]
    obtain ⟨t1, h1⟩ := wWriteLine_data st st.begin_comment true
    obtain ⟨t2, h2⟩ := foldl_comment_data (pySplitlines text) (wWriteLine st st.begin_comment true)
    set st2 := (pySplitlines text).foldl (fun s l => wWriteLine s (s.middle_comment ++ l) true)
      (wWriteLine st st.begin_comment true) with hst2
    by_cases he : st2.end_comment ≠ ""
    · obtain ⟨t3, h3⟩ := wWriteSource_data st2 st2.end_comment true
      refine ⟨t1 ++ (t2 ++ (t3 ++ (wWriteSource st2 st2.end_comment true).newline_char)), ?_⟩
      rw [if_pos he]
      simp only [wWriteNewline, h3, h2, h1, strAppend_assoc]
    · obtain ⟨t3, h3⟩ := wWriteSource_data st2 st2.begin_comment true
      refine ⟨t1 ++ (t2 ++ (t3 ++ (wWriteSource st2 st2.begin_comment true).newline_char)), ?_⟩
      rw [if_neg he]
      simp only [wWriteNewline, h3, h2, h1, strAppend_assoc]

/-- Helper: every public CodeWriter operation that succeeds only appends to
the buffer. -/
theorem applyWOp_data (op : WOp) (st st2 : CodeWriter) (h : applyWOp op st = .ok st2) :
    ∃ t, st2.data = st.data ++ t := by
  cases op with
  | writeNewline =>
    simp only [applyWOp, Except.ok.injEq] at h
    subst h
    exact ⟨st.newline_char, rfl⟩
  | writeSource l i =>
    simp only [applyWOp, Except.ok.injEq] at h
    subst h
    exact wWriteSource_data st l i
  | writeLine l i =>
    simp only [applyWOp, Except.ok.injEq] at h
    subst h
    exact wWriteLine_data st l i
  | writeComment t =>
    simp only [applyWOp, Except.ok.injEq] at h
    subst h
    exact wWriteComment_data st t
  | pushScope n =>
    simp only [applyWOp, Except.ok.injEq] at h
    subst h
    obtain ⟨t, ht⟩ := wWriteLine_data st ("\x7b " ++ st.begin_comment ++ n ++ st.end_comment) true
    exact ⟨t, ht⟩
  | popScope =>
    simp only [applyWOp, wPopScope] at h
    cases hs : st.scope_stack with
    | nil =>
      rw [show ({ st with indent := st.indent - st.indent_unit } : CodeWriter).scope_stack
            = ([] : List String) from hs] at h
      simp [Except.map] at h
    | cons nm rest =>
      rw [show ({ st with indent := st.indent - st.indent_unit } : CodeWriter).scope_stack
            = nm :: rest from hs] at h
      simp only [Except.map, Except.ok.injEq] at h
      subst h
      exact wWriteLine_data _ ("\x7d " ++ st.begin_comment ++ nm ++ st.end_comment) true
  | enableWhitespace =>
    simp only [applyWOp, Except.ok.injEq] at h
    subst h
    exact ⟨"", (strAppend_empty _).symm⟩
  | disableWhitespace =>
    simp only [applyWOp, Except.ok.injEq] at h
    subst h
    exact ⟨"", (strAppend_empty _).symm⟩

/-- Helper: a successful run of any operation sequence only appends. -/
theorem runWOps_data (ops : List WOp) (st res : CodeWriter)
    (h : runWOps ops st = .ok res) : ∃ t, res.data = st.data ++ t := by
  induction ops generalizing st with
  | nil =>
    simp only [runWOps, Except.ok.injEq] at h
    subst h
    exact ⟨"", (strAppend_empty _).symm⟩
  | cons op ops ih =>
    simp only [runWOps] at h
    cases happ : applyWOp op st with
    | error e => rw [happ] at h; exact absurd h (by simp)
    | ok st1 =>
      rw [happ] at h
      obtain ⟨t1, h1⟩ := applyWOp_data op st st1 happ
      obtain ⟨t2, h2⟩ := ih st1 h
      exact ⟨t1 ++ t2, by rw [h2, h1, strAppend_assoc]⟩

/-- Helper: a freshly constructed writer already has a non-empty buffer, for
every comment style argument. -/
theorem init_get_source_ne (bc : String) : CodeWriter.get_source (CodeWriter.init bc) ≠ "" := by
  by_cases h1 : bc = "/* "
  · subst h1; decide
  by_cases h2 : bc = "(* "
  · subst h2; decide
  by_cases h3 : bc = "# "
  · subst h3; decide
  by_cases h4 : bc = "// "
  · subst h4; decide
  simp only [CodeWriter.init, h1, h2, h3, h4, if_false]
  decide

/-- Claim C10: construction writes the license comment preamble into the
buffer before any caller-issued operation, so a fresh emitter's
`get_source` is non-empty, and after any successful sequence of public
operations the preamble is a prefix of the buffer — everything written later
appears after it. -/
theorem license_preamble (bc : String) (ops : List WOp) (res : CodeWriter)
    (h : runWOps ops (CodeWriter.init bc) = .ok res) :
    CodeWriter.get_source (CodeWriter.init bc) ≠ "" ∧
    (CodeWriter.get_source (CodeWriter.init bc)).data.isPrefixOf
      (CodeWriter.get_source res).data = true := by
  refine ⟨init_get_source_ne bc, ?_⟩
  obtain ⟨t, ht⟩ := runWOps_data ops (CodeWriter.init bc) res h
  simp only [CodeWriter.get_source] at ht ⊢
  rw [ht, strData_append]
  exact isPrefixOf_append_self _ _

/-- Claim C10 witness: for a C-comment writer, after writing one further
line the construction-time preamble is still a non-empty prefix of the
buffer. -/
theorem license_preamble_witness :
    CodeWriter.get_source (CodeWriter.init "/* ") ≠ "" ∧
    (CodeWriter.get_source (CodeWriter.init "/* ")).data.isPrefixOf
      (CodeWriter.get_source (wWriteLine (CodeWriter.init "/* ") "int x;" true)).data = true :=
  license_preamble "/* " [WOp.writeLine "int x;" true]
    (wWriteLine (CodeWriter.init "/* ") "int x;" true) rfl
